import Mathlib

/-!
Shallow embedding of `src/linkedin_scraper.py` (class `LinkedInScraper`).

The network, the browser and the HTML parser are external collaborators:
each call into them is modelled by an oracle value describing what the
collaborator returned (`ProxyResponse` for the ProxyScrape API together
with the outcome of the validation probe, `FetchOutcome` for one page
fetch through the browser).  The mutable fields of the Python object
(`consecutive_failures`, `current_proxy`, plus the proxy the Chrome
driver was configured with) form `ScraperState`, threaded explicitly.
-/

/-- Contiguous-sublist test on character lists: true iff the first list
occurs contiguously inside the second. -/
def isSubList : List Char → List Char → Bool
  | [], _ => true
  | _, [] => false
  | needle, c :: rest => needle.isPrefixOf (c :: rest) || isSubList needle rest

/-- Substring test: Python's `needle in haystack`. -/
def containsSub (needle haystack : String) : Bool :=
  isSubList needle.toList haystack.toList

/-- Case-insensitive substring test: Python's `needle in haystack.lower()`
for an already-lowercase needle. -/
def lowerContains (needle haystack : String) : Bool :=
  isSubList needle.toList (haystack.toList.map Char.toLower)

/-- The mutable state of the `LinkedInScraper` object.
`consecutive_failures` and `current_proxy` are the fields set in
`__init__` (lines 31-32); `driver_proxy` records the proxy the Chrome
driver was last configured with by `setup_driver` (lines 36-52), i.e.
the egress identity actually used for fetching. -/
structure ScraperState where
  consecutive_failures : Nat
  current_proxy : Option String
  driver_proxy : Option String
deriving Repr, DecidableEq

/-- `setup_driver` (lines 36-52): recreates the Chrome driver, passing
`--proxy-server=current_proxy` when one is set.  Its observable effect
on the model is that the driver now uses `current_proxy`. -/
def setup_driver (st : ScraperState) : ScraperState :=
  { st with driver_proxy := st.current_proxy }

/-- Oracle for one call to the ProxyScrape API inside `get_new_proxy`,
together with the outcome of the subsequent `validate_proxy` probe
(lines 54-61, itself a network call returning a Bool):
`ok proxy valid` is an HTTP 200 response whose stripped body is `proxy`
and whose validation probe result is `valid`; `httpError code` is a
non-200 status; `exn` is an exception raised by the request. -/
inductive ProxyResponse where
  | ok (proxy : String) (valid : Bool)
  | httpError (code : Nat)
  | exn
deriving Repr, DecidableEq

/-- `get_new_proxy` (lines 63-89).  On HTTP 200 the stripped body is
stored into `self.current_proxy` (line 74) and only then validated
(line 77); on validation success the driver is re-created
(`setup_driver`, line 78) and True is returned, on validation failure
False is returned (line 82) with `current_proxy` already replaced.
A non-200 status or an exception returns False leaving the state
untouched (lines 83-89). -/
def get_new_proxy (st : ScraperState) (r : ProxyResponse) : Bool × ScraperState :=
  match r with
  | .ok proxy valid =>
      let st1 := { st with current_proxy := some proxy }
      if valid then (true, setup_driver st1) else (false, st1)
  | .httpError _ => (false, st)
  | .exn => (false, st)

/-- Oracle for one fetch attempt inside `extract_profile_info`:
either the body raised (`exn`, caught at lines 159-162), or a page was
rendered with final URL `u` (`driver.current_url`), title `t`
(`driver.title`), page source `c` (`driver.page_source`), and the
optional results `n`, `l` of the two BeautifulSoup selector lookups for
name and location (lines 141-145, `None` when the element is absent). -/
inductive FetchOutcome where
  | exn
  | page (u t c : String) (n l : Option String)
deriving Repr, DecidableEq

/-- Everything the environment supplies during one iteration of the
`while` loop of `extract_profile_info`: the fetch outcome, and the
`ProxyResponse` consumed by `get_new_proxy` should a failure branch
call it. -/
structure AttemptEnv where
  fetch : FetchOutcome
  rotation : ProxyResponse
deriving Repr, DecidableEq

/-- Category assigned to a fetch result by the branch sequence at lines
111-153 of `extract_profile_info` (the spec's Response Classifier). -/
inductive Category where
  | blocked
  | wrongDomain
  | extractionFailure
  | success
deriving Repr, DecidableEq

/-- The classifier implemented by the branch sequence of
`extract_profile_info`, as a standalone pure function of the fetch
result: line 111 (error markers in title/page source), line 120
(login/authwall in the current URL), line 129 (current URL not
containing "linkedin"), line 147 (selector lookup for name or location
returned None), else success. -/
def classify (u t c : String) (n l : Option String) : Category :=
  if lowerContains "error" t || lowerContains "not found" c then .blocked
  else if containsSub "login" u || containsSub "authwall" u then .blocked
  else if !(containsSub "linkedin" u) then .wrongDomain
  else if n.isNone || l.isNone then .extractionFailure
  else .success

/-- Outcome of one loop iteration of `extract_profile_info`:
`done r st` means the function returned `r` (the `return` statements at
lines 117, 126, 135, 153, 157), `retry st` means the iteration ended in
`continue` (or fell through the `except` block) with `attempts`
incremented. -/
inductive StepResult where
  | done (r : Option (String × String)) (st : ScraperState)
  | retry (st : ScraperState)
deriving Repr, DecidableEq

/-- The state carried by a `StepResult`. -/
def StepResult.state : StepResult → ScraperState
  | .done _ st => st
  | .retry st => st

/-- The failure handling block duplicated at lines 112-117, 121-126,
130-135, 148-153: `self.consecutive_failures += 1`; then
`if self.get_new_proxy(): attempts += 1; continue` else
`return None, None`. -/
def handleFailure (st : ScraperState) (r : ProxyResponse) : StepResult :=
  let st1 := { st with consecutive_failures := st.consecutive_failures + 1 }
  let res := get_new_proxy st1 r
  if res.1 then .retry res.2 else .done none res.2

/-- One iteration of the `while` loop of `extract_profile_info`
(lines 97-162), transcribing the body's branch sequence.  The
`except Exception` handler at lines 159-162 increments
`consecutive_failures` and `attempts` and re-enters the loop. -/
def attemptStep (e : AttemptEnv) (st : ScraperState) : StepResult :=
  match e.fetch with
  | .exn =>
      .retry { st with consecutive_failures := st.consecutive_failures + 1 }
  | .page u t c n l =>
      if lowerContains "error" t || lowerContains "not found" c then
        handleFailure st e.rotation
      else if containsSub "login" u || containsSub "authwall" u then
        handleFailure st e.rotation
      else if !(containsSub "linkedin" u) then
        handleFailure st e.rotation
      else if n.isNone || l.isNone then
        handleFailure st e.rotation
      else
        .done (some (n.getD "", l.getD "")) { st with consecutive_failures := 0 }

/-- The `while attempts < max_attempts` loop of `extract_profile_info`,
driven by the fuel `max_attempts - attempts`: `extractLoop fuel env st a`
runs the loop starting at attempt counter `a` with `fuel = 5 - a`, the
oracle `env` supplying the environment of each iteration by attempt
index.  Returns the function's result, the final state, and the final
value of `attempts`.  `attempts` is incremented exactly when an
iteration ends in `continue` (lines 115, 124, 133, 151, 162). -/
def extractLoop : Nat → (Nat → AttemptEnv) → ScraperState → Nat →
    Option (String × String) × ScraperState × Nat
  | 0, _, st, a => (none, st, a)
  | fuel + 1, env, st, a =>
      match attemptStep (env a) st with
      | .done r st1 => (r, st1, a)
      | .retry st1 => extractLoop fuel env st1 (a + 1)

/-- `extract_profile_info` (lines 91-165): `attempts = 0`,
`max_attempts = 5`, then the while loop; falling out of the loop
returns `(None, None)` (line 165). -/
def extract_profile_info (env : Nat → AttemptEnv) (st : ScraperState) :
    Option (String × String) × ScraperState × Nat :=
  extractLoop 5 env st 0

/-- One CSV record with the fixed field set written by
`process_profiles` (line 175): `first_name, last_name, geo, prooflink,
IP change`. -/
structure Row where
  first_name : String
  last_name : String
  geo : String
  prooflink : String
  ip_change : String
deriving Repr, DecidableEq

/-- Python's `name.split(' ', 1)`: the part before the first space and,
when a space exists, the remainder after it. -/
def splitFirstSpace (s : String) : String × Option String :=
  match s.toList.span (fun ch => ch ≠ ' ') with
  | (pre, []) => (String.mk pre, none)
  | (pre, _ :: rest) => (String.mk pre, some (String.mk rest))

/-- Lines 198-204: the extracted fields are attached to the row.
Python's `if name:` / `if location:` are truthiness tests, so an empty
string leaves the field untouched; `name.split(' ', 1)` fills
`first_name` and `last_name` (the latter `''` when there is no space). -/
def writeFields (r : Row) (res : Option (String × String)) : Row :=
  match res with
  | none => r
  | some (name, location) =>
      let r1 :=
        if name ≠ "" then
          let p := splitFirstSpace name
          { r with first_name := p.1, last_name := p.2.getD "" }
        else r
      if location ≠ "" then { r1 with geo := location } else r1

/-- The proactive rotation check at lines 189-194 of
`process_profiles`: `if self.consecutive_failures >= 5`, call
`get_new_proxy` (its return value is ignored), set the row's
`IP change` field to `'rotation'`, and reset `consecutive_failures`
to 0. -/
def proactive_rotation (st : ScraperState) (r0 : Row) (rot : ProxyResponse) :
    Row × ScraperState :=
  if 5 ≤ st.consecutive_failures then
    ({ r0 with ip_change := "rotation" },
     { (get_new_proxy st rot).2 with consecutive_failures := 0 })
  else (r0, st)

/-- `process_profiles` (lines 167-215): reads all rows, rewrites the
file with the fixed header, processes only the first row (line 180);
an empty `prooflink` returns early leaving the file with just the
header (lines 183-185); otherwise the proactive rotation check runs,
`extract_profile_info` is called, the extracted fields are attached,
and the row is written exactly once (line 206).  The returned list is
the sequence of data rows the rewritten file holds after the header;
the second component is the final scraper state. -/
def process_profiles (st : ScraperState) (rows : List Row)
    (env : Nat → AttemptEnv) (rot : ProxyResponse) : List Row × ScraperState :=
  match rows with
  | [] => ([], st)
  | r0 :: _ =>
      if r0.prooflink = "" then ([], st)
      else
        let pr := proactive_rotation st r0 rot
        let out := extract_profile_info env pr.2
        ([writeFields pr.1 out.1], out.2.1)

/-! ## Helper lemmas -/

/-- Whether the fetch outcome of an attempt is classified success by the
branch sequence. -/
def fetchSuccess (e : AttemptEnv) : Bool :=
  match e.fetch with
  | .exn => false
  | .page u t c n l => decide (classify u t c n l = Category.success)

theorem get_new_proxy_cf (st : ScraperState) (r : ProxyResponse) :
    (get_new_proxy st r).2.consecutive_failures = st.consecutive_failures := by
  cases r with
  | ok p v => cases v <;> simp [get_new_proxy, setup_driver]
  | httpError code => rfl
  | exn => rfl

theorem attemptStep_exn (e : AttemptEnv) (st : ScraperState) (h : e.fetch = .exn) :
    attemptStep e st =
      .retry { st with consecutive_failures := st.consecutive_failures + 1 } := by
  cases e with
  | mk f r => simp only at h; subst h; rfl

theorem attemptStep_page (u t c : String) (n l : Option String) (r : ProxyResponse)
    (st : ScraperState) :
    attemptStep ⟨.page u t c n l, r⟩ st =
      if classify u t c n l = Category.success then
        .done (some (n.getD "", l.getD "")) { st with consecutive_failures := 0 }
      else handleFailure st r := by
  cases h1 : lowerContains "error" t || lowerContains "not found" c <;>
  cases h2 : containsSub "login" u || containsSub "authwall" u <;>
  cases h3 : containsSub "linkedin" u <;>
  cases h4 : n.isNone || l.isNone <;>
  simp [attemptStep, classify, h1, h2, h3, h4]

theorem handleFailure_state_cf (st : ScraperState) (r : ProxyResponse) :
    ((handleFailure st r).state).consecutive_failures = st.consecutive_failures + 1 := by
  by_cases h : (get_new_proxy { st with consecutive_failures := st.consecutive_failures + 1 } r).1 = true
  · simp [handleFailure, h, StepResult.state, get_new_proxy_cf]
  · simp only [Bool.not_eq_true] at h
    simp [handleFailure, h, StepResult.state, get_new_proxy_cf]

theorem handleFailure_done (st st1 : ScraperState) (r : ProxyResponse)
    (q : Option (String × String)) (h : handleFailure st r = .done q st1) : q = none := by
  by_cases hg : (get_new_proxy { st with consecutive_failures := st.consecutive_failures + 1 } r).1 = true
  · simp [handleFailure, hg] at h
  · simp only [Bool.not_eq_true] at hg
    simp [handleFailure, hg] at h
    exact h.1.symm

theorem extractLoop_attempts_le (fuel : Nat) (env : Nat → AttemptEnv)
    (st : ScraperState) (a : Nat) :
    (extractLoop fuel env st a).2.2 ≤ a + fuel := by
  induction fuel generalizing st a with
  | zero => simp [extractLoop]
  | succ fuel ih =>
      rcases h : attemptStep (env a) st with ⟨r, st1⟩ | st1
      · simp [extractLoop, h]
      · simp only [extractLoop, h]
        have := ih st1 (a + 1)
        omega

theorem attemptStep_done_some (e : AttemptEnv) (st st1 : ScraperState)
    (p : String × String) (h : attemptStep e st = .done (some p) st1) :
    st1.consecutive_failures = 0 := by
  rcases e with ⟨f, r⟩
  cases f with
  | exn => simp [attemptStep] at h
  | page u t c n l =>
      rw [attemptStep_page] at h
      by_cases hc : classify u t c n l = Category.success
      · simp [hc] at h
        rw [← h.2]
      · simp [hc] at h
        have := handleFailure_done _ _ _ _ h
        simp at this

theorem extractLoop_some_cf (fuel : Nat) (env : Nat → AttemptEnv)
    (st : ScraperState) (a : Nat) (p : String × String)
    (h : (extractLoop fuel env st a).1 = some p) :
    (extractLoop fuel env st a).2.1.consecutive_failures = 0 := by
  induction fuel generalizing st a with
  | zero => simp [extractLoop] at h
  | succ fuel ih =>
      rcases hs : attemptStep (env a) st with ⟨r, st1⟩ | st1
      · simp only [extractLoop, hs] at h ⊢
        subst h
        exact attemptStep_done_some _ _ _ _ hs
      · simp only [extractLoop, hs] at h ⊢
        exact ih st1 (a + 1) h

/-! ## Claims -/

/-- Claim C1, counterexample: with active identity "p0", a candidate
"p1" that is obtained (HTTP 200) but fails validation makes
`get_new_proxy` return False, yet the active identity `current_proxy`
has been replaced by the failed candidate, contradicting the claim that
whenever `get_new_proxy` returns False the active identity equals what
it was before the call. -/
theorem C1_counterexample :
    (get_new_proxy ⟨0, some "p0", some "p0"⟩ (.ok "p1" false)).1 = false ∧
    (get_new_proxy ⟨0, some "p0", some "p0"⟩ (.ok "p1" false)).2.current_proxy ≠
      (ScraperState.mk 0 (some "p0") (some "p0")).current_proxy := by
  decide

/-- Claim C1, amended: `current_proxy` is replaced as soon as a
candidate is obtained (HTTP 200), before validation, so after a failed
validation `get_new_proxy` returns False with `current_proxy` holding
the invalid candidate; the browser driver's egress identity
(`driver_proxy`) is reconfigured only after successful validation;
acquisition failures (non-200 status or exception) leave the whole
state unchanged; and `get_new_proxy` returns True exactly when a
candidate was obtained and validated, in which case both `current_proxy`
and the driver use it. -/
theorem C1_amended (st : ScraperState) (r : ProxyResponse) :
    ((get_new_proxy st r).1 = false →
      (get_new_proxy st r).2.driver_proxy = st.driver_proxy) ∧
    (∀ p v, r = .ok p v → (get_new_proxy st r).2.current_proxy = some p) ∧
    ((r = .exn ∨ ∃ code, r = .httpError code) →
      (get_new_proxy st r).2 = st ∧ (get_new_proxy st r).1 = false) ∧
    ((get_new_proxy st r).1 = true →
      ∃ p, r = .ok p true ∧ (get_new_proxy st r).2.current_proxy = some p ∧
        (get_new_proxy st r).2.driver_proxy = some p) := by
  cases r with
  | ok p v => cases v <;> simp [get_new_proxy, setup_driver]
  | httpError code => simp [get_new_proxy]
  | exn => simp [get_new_proxy]

/-- Witness for C1_amended at concrete inputs. -/
theorem C1_amended_witness :
    (get_new_proxy ⟨0, some "p0", some "p0"⟩ (.ok "p1" false)).2.driver_proxy = some "p0" ∧
    (get_new_proxy ⟨0, some "p0", some "p0"⟩ (.ok "p1" true)).2.current_proxy = some "p1" := by
  refine ⟨(C1_amended ⟨0, some "p0", some "p0"⟩ (.ok "p1" false)).1 (by decide), ?_⟩
  exact (C1_amended ⟨0, some "p0", some "p0"⟩ (.ok "p1" true)).2.1 "p1" true rfl

/-- Claim C2: for every oracle and starting state, the attempt counter
of `extract_profile_info` never exceeds `max_attempts = 5`: the final
value of `attempts` (which bounds every intermediate value, the counter
only ever being incremented) is at most 5, in particular when the target
is abandoned with result `none`. -/
theorem C2_attempts_bounded (env : Nat → AttemptEnv) (st : ScraperState) :
    (extract_profile_info env st).2.2 ≤ 5 := by
  simpa using extractLoop_attempts_le 5 env st 0

/-- Claim C3: within the fetch-attempt loop, `consecutive_failures` is
incremented by exactly 1 by every attempt whose outcome is a failure
classification (including the generic-exception path) and is set to
exactly 0 by an attempt classified success, and only by one: after a
non-success attempt the counter is the old value plus one (hence never
reset), and whenever `extract_profile_info` returns an extracted pair
the final counter is exactly 0. -/
theorem C3_consecutive_failures (e : AttemptEnv) (st : ScraperState) :
    (fetchSuccess e = true →
      ((attemptStep e st).state).consecutive_failures = 0) ∧
    (fetchSuccess e = false →
      ((attemptStep e st).state).consecutive_failures = st.consecutive_failures + 1) ∧
    (∀ env s p, (extract_profile_info env s).1 = some p →
      (extract_profile_info env s).2.1.consecutive_failures = 0) := by
  refine ⟨?_, ?_, ?_⟩
  · intro h
    rcases e with ⟨f, r⟩
    cases f with
    | exn => simp [fetchSuccess] at h
    | page u t c n l =>
        simp only [fetchSuccess, decide_eq_true_eq] at h
        rw [attemptStep_page]
        simp [h, StepResult.state]
  · intro h
    rcases e with ⟨f, r⟩
    cases f with
    | exn => simp [attemptStep, StepResult.state]
    | page u t c n l =>
        simp only [fetchSuccess, decide_eq_false_iff_not] at h
        rw [attemptStep_page]
        simp [h, handleFailure_state_cf]
  · intro env s p h
    exact extractLoop_some_cf 5 env s 0 p h

/-- Witness for C3_consecutive_failures: a concrete success attempt
resets the counter to 0, a concrete generic-error attempt raises it
from 3 to 4, and a run whose first attempt succeeds ends with counter 0. -/
theorem C3_witness :
    ((attemptStep ⟨.page "linkedin" "t" "c" (some "A B") (some "L"), .exn⟩
      ⟨3, none, none⟩).state).consecutive_failures = 0 ∧
    ((attemptStep ⟨.exn, .exn⟩ ⟨3, none, none⟩).state).consecutive_failures = 4 ∧
    (extract_profile_info
      (fun _ => ⟨.page "linkedin" "t" "c" (some "A B") (some "L"), .exn⟩)
      ⟨3, none, none⟩).2.1.consecutive_failures = 0 := by
  refine ⟨(C3_consecutive_failures _ _).1 (by decide),
    (C3_consecutive_failures ⟨.exn, .exn⟩ ⟨3, none, none⟩).2.1 (by decide), ?_⟩
  exact (C3_consecutive_failures ⟨.exn, .exn⟩ ⟨3, none, none⟩).2.2 _ _ ("A B", "L")
    (by decide)

/-- Claim C4: the branch sequence of `extract_profile_info` factors
through the pure, total classifier `classify` (first conjunct: the step
on a rendered page is exactly success handling when `classify` yields
success and the common failure handling otherwise), and `classify`
applies first-match-wins precedence: error-page markers in
title/content dominate everything and yield blocked; otherwise
login/authwall markers in the final URL yield blocked; otherwise a
final URL without "linkedin" yields wrong-domain; otherwise a missing
name or location yields extraction-failure; otherwise success.  The
last conjunct is the constructed case exhibiting both error-page
markers and missing fields, classified blocked. -/
theorem C4_classifier (u t c : String) (n l : Option String) (r : ProxyResponse)
    (st : ScraperState) :
    (attemptStep ⟨.page u t c n l, r⟩ st =
      if classify u t c n l = Category.success then
        .done (some (n.getD "", l.getD "")) { st with consecutive_failures := 0 }
      else handleFailure st r) ∧
    ((lowerContains "error" t || lowerContains "not found" c) = true →
      classify u t c n l = .blocked) ∧
    ((lowerContains "error" t || lowerContains "not found" c) = false →
      (containsSub "login" u || containsSub "authwall" u) = true →
      classify u t c n l = .blocked) ∧
    ((lowerContains "error" t || lowerContains "not found" c) = false →
      (containsSub "login" u || containsSub "authwall" u) = false →
      containsSub "linkedin" u = false →
      classify u t c n l = .wrongDomain) ∧
    ((lowerContains "error" t || lowerContains "not found" c) = false →
      (containsSub "login" u || containsSub "authwall" u) = false →
      containsSub "linkedin" u = true →
      (n.isNone || l.isNone) = true →
      classify u t c n l = .extractionFailure) ∧
    ((lowerContains "error" t || lowerContains "not found" c) = false →
      (containsSub "login" u || containsSub "authwall" u) = false →
      containsSub "linkedin" u = true →
      (n.isNone || l.isNone) = false →
      classify u t c n l = .success) ∧
    (classify "https://www.linkedin.com/in/x" "Error - Page Not Found" "oops"
      none none = .blocked) := by
  refine ⟨attemptStep_page u t c n l r st, ?_, ?_, ?_, ?_, ?_, by decide⟩ <;>
    intros <;> simp_all [classify, Option.isSome_iff_ne_none]

/-- Witness for C4_classifier at concrete inputs: the factoring equation
instantiated, error-marker precedence on a page that also lacks the
required fields, and the success case. -/
theorem C4_witness :
    classify "https://www.linkedin.com/x" "Server Error" "body" none (some "L") =
      Category.blocked ∧
    classify "https://www.linkedin.com/in/ok" "Profile" "body" (some "A") (some "L") =
      Category.success := by
  refine ⟨(C4_classifier "https://www.linkedin.com/x" "Server Error" "body" none
    (some "L") .exn ⟨0, none, none⟩).2.1 (by decide), ?_⟩
  exact (C4_classifier "https://www.linkedin.com/in/ok" "Profile" "body" (some "A")
    (some "L") .exn ⟨0, none, none⟩).2.2.2.2.2.1 (by decide) (by decide) (by decide)
    (by decide)

/-- Claim C5, counterexample: with `consecutive_failures = 6` at the
start of a target (reachable when an earlier target was abandoned
mid-way through a failure streak), the proactive rotation fires — the
written row's `IP change` field is set to "rotation" — although the
counter does not equal 5, refuting "fires exactly when
consecutive_failure_count == 5". -/
theorem C5_counterexample :
    (process_profiles ⟨6, none, none⟩ [⟨"", "", "", "x", ""⟩]
      (fun _ => ⟨.exn, .exn⟩) (.httpError 503)).1 =
      [⟨"", "", "", "x", "rotation"⟩] ∧
    (6 : Nat) ≠ 5 := by
  exact ⟨by decide, by decide⟩

/-- Claim C5, amended: proactive rotation fires exactly when
`consecutive_failures >= 5` at the start of processing a target, never
mid-target; its effect is to attempt a rotation (the result of
`get_new_proxy` is ignored), set the target's `IP change` marker field
to "rotation", and reset `consecutive_failures` to 0 before the first
fetch attempt of that target, which then runs from this adjusted state;
below the threshold the row and the state enter the fetch loop
unchanged. -/
theorem C5_amended (st : ScraperState) (r0 : Row) (rest : List Row)
    (env : Nat → AttemptEnv) (rot : ProxyResponse) (h : r0.prooflink ≠ "") :
    (5 ≤ st.consecutive_failures →
      (proactive_rotation st r0 rot).1.ip_change = "rotation" ∧
      (proactive_rotation st r0 rot).2.consecutive_failures = 0 ∧
      (proactive_rotation st r0 rot).2.current_proxy =
        (get_new_proxy st rot).2.current_proxy) ∧
    (st.consecutive_failures < 5 → proactive_rotation st r0 rot = (r0, st)) ∧
    process_profiles st (r0 :: rest) env rot =
      ([writeFields (proactive_rotation st r0 rot).1
          (extract_profile_info env (proactive_rotation st r0 rot).2).1],
        (extract_profile_info env (proactive_rotation st r0 rot).2).2.1) := by
  refine ⟨fun h5 => ?_, fun h5 => ?_, ?_⟩
  · simp [proactive_rotation, h5]
  · have : ¬ 5 ≤ st.consecutive_failures := by omega
    simp [proactive_rotation, this]
  · simp [process_profiles, h]

/-- Witness for C5_amended: at counter 7 the rotation fires and resets
the counter; at counter 3 the row and state are untouched. -/
theorem C5_amended_witness :
    ((proactive_rotation ⟨7, none, none⟩ ⟨"", "", "", "x", ""⟩ (.ok "p" true)).1.ip_change
      = "rotation" ∧
     (proactive_rotation ⟨7, none, none⟩ ⟨"", "", "", "x", ""⟩ (.ok "p" true)).2.consecutive_failures
      = 0) ∧
    proactive_rotation ⟨3, none, none⟩ ⟨"", "", "", "x", ""⟩ (.ok "p" true) =
      (⟨"", "", "", "x", ""⟩, ⟨3, none, none⟩) := by
  have h1 := C5_amended ⟨7, none, none⟩ ⟨"", "", "", "x", ""⟩ []
    (fun _ => ⟨.exn, .exn⟩) (.ok "p" true) (by decide)
  have h2 := C5_amended ⟨3, none, none⟩ ⟨"", "", "", "x", ""⟩ []
    (fun _ => ⟨.exn, .exn⟩) (.ok "p" true) (by decide)
  exact ⟨⟨(h1.1 (by decide)).1, (h1.1 (by decide)).2.1⟩, h2.2.1 (by decide)⟩

/-- Claim C6: when an attempt's fetch result is classified as any
failure category, the loop proceeds to another attempt only after a
successful rotation: a `retry` outcome implies the rotation oracle
delivered a validated candidate `p`, and the next attempt runs with
`current_proxy` and the driver both set to `p` (never the old
identity); when instead the rotation fails, the step abandons the
target immediately. -/
theorem C6_rotate_on_failure (u t c : String) (n l : Option String)
    (r : ProxyResponse) (st st1 : ScraperState)
    (hfail : classify u t c n l ≠ Category.success) :
    (attemptStep ⟨.page u t c n l, r⟩ st = .retry st1 →
      ∃ p, r = .ok p true ∧ st1.current_proxy = some p ∧
        st1.driver_proxy = some p ∧
        st1.consecutive_failures = st.consecutive_failures + 1) ∧
    ((get_new_proxy { st with consecutive_failures := st.consecutive_failures + 1 } r).1
        = false →
      attemptStep ⟨.page u t c n l, r⟩ st =
        .done none
          (get_new_proxy { st with consecutive_failures := st.consecutive_failures + 1 } r).2) := by
  rw [attemptStep_page]
  simp only [hfail, if_false]
  constructor
  · intro hr
    cases r with
    | ok p v =>
        cases v with
        | true =>
            refine ⟨p, rfl, ?_, ?_, ?_⟩ <;>
              · simp [handleFailure, get_new_proxy, setup_driver] at hr
                simp [← hr]
        | false => simp [handleFailure, get_new_proxy] at hr
    | httpError code => simp [handleFailure, get_new_proxy] at hr
    | exn => simp [handleFailure, get_new_proxy] at hr
  · intro hg
    simp [handleFailure, hg]

/-- Witness for C6_rotate_on_failure: a wrong-domain page with a
validated rotation candidate "p" retries with identity "p"; the same
page with a failed acquisition abandons the target. -/
theorem C6_witness :
    (∃ p, (ProxyResponse.ok "p" true) = .ok p true ∧
      (ScraperState.mk 1 (some "p") (some "p")).current_proxy = some p ∧
      (ScraperState.mk 1 (some "p") (some "p")).driver_proxy = some p ∧
      (ScraperState.mk 1 (some "p") (some "p")).consecutive_failures =
        (ScraperState.mk 0 none none).consecutive_failures + 1) ∧
    attemptStep ⟨.page "http://other.com" "t" "c" (some "A") (some "L"), .httpError 503⟩
        ⟨0, none, none⟩ =
      .done none ⟨1, none, none⟩ := by
  constructor
  · exact (C6_rotate_on_failure "http://other.com" "t" "c" (some "A") (some "L")
      (.ok "p" true) ⟨0, none, none⟩ ⟨1, some "p", some "p"⟩ (by decide)).1 (by decide)
  · exact (C6_rotate_on_failure "http://other.com" "t" "c" (some "A") (some "L")
      (.httpError 503) ⟨0, none, none⟩ ⟨1, none, none⟩ (by decide)).2 (by decide)

/-- Claim C7: a processed target (nonempty prooflink) yields exactly one
written row; when the target is abandoned (`extract_profile_info`
returns no extraction), the written row is the unprocessed row itself,
whose `first_name`, `last_name` and `geo` fields are exactly those of
the input row (blank when the input left them blank). -/
theorem C7_write_once (st : ScraperState) (r0 : Row) (rest : List Row)
    (env : Nat → AttemptEnv) (rot : ProxyResponse) (h : r0.prooflink ≠ "") :
    (process_profiles st (r0 :: rest) env rot).1.length = 1 ∧
    ((extract_profile_info env (proactive_rotation st r0 rot).2).1 = none →
      (process_profiles st (r0 :: rest) env rot).1 = [(proactive_rotation st r0 rot).1] ∧
      (proactive_rotation st r0 rot).1.first_name = r0.first_name ∧
      (proactive_rotation st r0 rot).1.last_name = r0.last_name ∧
      (proactive_rotation st r0 rot).1.geo = r0.geo) := by
  constructor
  · simp [process_profiles, h]
  · intro hnone
    refine ⟨?_, ?_, ?_, ?_⟩
    · simp [process_profiles, h, hnone, writeFields]
    all_goals
      by_cases h5 : 5 ≤ st.consecutive_failures <;> simp [proactive_rotation, h5]

/-- Witness for C7_write_once: a run whose five attempts all raise is
abandoned and still writes exactly one row, the untouched input row. -/
theorem C7_witness :
    (process_profiles ⟨0, none, none⟩ [⟨"", "", "", "x", ""⟩]
      (fun _ => ⟨.exn, .exn⟩) (.httpError 503)).1.length = 1 ∧
    (process_profiles ⟨0, none, none⟩ [⟨"", "", "", "x", ""⟩]
      (fun _ => ⟨.exn, .exn⟩) (.httpError 503)).1 = [⟨"", "", "", "x", ""⟩] := by
  have h := C7_write_once ⟨0, none, none⟩ ⟨"", "", "", "x", ""⟩ []
    (fun _ => ⟨.exn, .exn⟩) (.httpError 503) (by decide)
  exact ⟨h.1, (h.2 (by decide)).1⟩

theorem extractLoop_all_exn (fuel : Nat) (env : Nat → AttemptEnv)
    (hexn : ∀ i, (env i).fetch = FetchOutcome.exn) (st : ScraperState) (a : Nat) :
    extractLoop fuel env st a =
      (none, { st with consecutive_failures := st.consecutive_failures + fuel },
        a + fuel) := by
  induction fuel generalizing st a with
  | zero => simp [extractLoop]
  | succ fuel ih =>
      have hstep := attemptStep_exn (env a) st (hexn a)
      simp only [extractLoop, hstep]
      rw [ih]
      simp only [Prod.mk.injEq, ScraperState.mk.injEq, true_and, and_true]
      omega

/-- Claim C8: an attempt whose body raises an unclassified error is
folded into the loop's accounting rather than propagated: the step
increments `consecutive_failures` by 1 and re-enters the loop (where
`attempts` is incremented, line 162); a run all of whose attempts raise
retries exactly `max_attempts = 5` times and then abandons the target
with both counters accounted; and the surrounding `process_profiles`
still completes the target normally, writing its single row — no error
crosses the per-target boundary. -/
theorem C8_generic_error (e : AttemptEnv) (st : ScraperState) :
    (e.fetch = .exn →
      attemptStep e st =
        .retry { st with consecutive_failures := st.consecutive_failures + 1 }) ∧
    (∀ env s, (∀ i, (env i).fetch = FetchOutcome.exn) →
      extract_profile_info env s =
        (none, { s with consecutive_failures := s.consecutive_failures + 5 }, 5)) ∧
    (∀ s (r0 : Row) rest env rot, r0.prooflink ≠ "" →
      (process_profiles s (r0 :: rest) env rot).1.length = 1) := by
  refine ⟨attemptStep_exn e st, fun env s hexn => ?_, fun s r0 rest env rot h => ?_⟩
  · simpa [extract_profile_info] using extractLoop_all_exn 5 env hexn s 0
  · simp [process_profiles, h]

/-- Witness for C8_generic_error: one raising attempt retries with the
counter at 1; five raising attempts abandon with counters 5 and 5; the
target still produces its one output row. -/
theorem C8_witness :
    attemptStep ⟨.exn, .exn⟩ ⟨0, none, none⟩ = .retry ⟨1, none, none⟩ ∧
    extract_profile_info (fun _ => ⟨.exn, .exn⟩) ⟨0, none, none⟩ =
      (none, ⟨5, none, none⟩, 5) ∧
    (process_profiles ⟨0, none, none⟩ [⟨"", "", "", "x", ""⟩]
      (fun _ => ⟨.exn, .exn⟩) .exn).1.length = 1 := by
  refine ⟨(C8_generic_error ⟨.exn, .exn⟩ ⟨0, none, none⟩).1 rfl, ?_, ?_⟩
  · exact (C8_generic_error ⟨.exn, .exn⟩ ⟨0, none, none⟩).2.1 _ _ (fun i => rfl)
  · exact (C8_generic_error ⟨.exn, .exn⟩ ⟨0, none, none⟩).2.2 _ _ [] _ .exn (by decide)

/-- Claim C9: a fetch landing on a LinkedIn-domain page with extracted
name "Jane Doe" and location "Remote" is classified success, and the
run writes the row with first_name "Jane", last_name "Doe" (the name
split at its first space) and geo "Remote". -/
theorem C9_jane_doe :
    classify "https://www.linkedin.com/in/janedoe" "Jane Doe | Profile"
      "profile content" (some "Jane Doe") (some "Remote") = Category.success ∧
    process_profiles ⟨0, some "p", some "p"⟩
      [⟨"", "", "", "https://www.linkedin.com/in/janedoe", ""⟩]
      (fun _ => ⟨.page "https://www.linkedin.com/in/janedoe" "Jane Doe | Profile"
        "profile content" (some "Jane Doe") (some "Remote"), .exn⟩) .exn =
      ([⟨"Jane", "Doe", "Remote", "https://www.linkedin.com/in/janedoe", ""⟩],
        ⟨0, some "p", some "p"⟩) := by
  exact ⟨by decide, by decide⟩

/-- Claim C10: `process_profiles` rewrites the file so that after the
header it holds at most one data row; that row, when present, is
derived from the first input row (all later input rows are dropped);
and when processing stops before the write — an empty prooflink in the
first row — the file is left with the header and zero data rows. -/
theorem C10_rewrite (st : ScraperState) (rows : List Row)
    (env : Nat → AttemptEnv) (rot : ProxyResponse) :
    (process_profiles st rows env rot).1.length ≤ 1 ∧
    (∀ r0 rest, rows = r0 :: rest → r0.prooflink = "" →
      (process_profiles st rows env rot).1 = []) ∧
    (∀ r0 rest, rows = r0 :: rest → r0.prooflink ≠ "" →
      (process_profiles st rows env rot).1 =
        [writeFields (proactive_rotation st r0 rot).1
          (extract_profile_info env (proactive_rotation st r0 rot).2).1]) := by
  refine ⟨?_, ?_, ?_⟩
  · cases rows with
    | nil => simp [process_profiles]
    | cons r0 rest => by_cases h : r0.prooflink = "" <;> simp [process_profiles, h]
  · rintro r0 rest rfl h
    simp [process_profiles, h]
  · rintro r0 rest rfl h
    simp [process_profiles, h]

/-- Witness for C10_rewrite: a two-row input whose first row has an
empty prooflink leaves zero data rows (both input rows gone from the
file); a one-row processable input leaves at most one. -/
theorem C10_witness :
    (process_profiles ⟨0, none, none⟩ [⟨"", "", "", "", ""⟩, ⟨"", "", "", "y", ""⟩]
      (fun _ => ⟨.exn, .exn⟩) .exn).1 = [] ∧
    (process_profiles ⟨0, none, none⟩ [⟨"", "", "", "x", ""⟩]
      (fun _ => ⟨.exn, .exn⟩) .exn).1.length ≤ 1 := by
  refine ⟨(C10_rewrite ⟨0, none, none⟩ _ (fun _ => ⟨.exn, .exn⟩) .exn).2.1
    ⟨"", "", "", "", ""⟩ [⟨"", "", "", "y", ""⟩] rfl rfl, ?_⟩
  exact (C10_rewrite ⟨0, none, none⟩ _ (fun _ => ⟨.exn, .exn⟩) .exn).1
